import Mathlib

/-!
Verification of the milkman-manager web application (`app.py`) against its
specification.  The application is a Flask app backed by PostgreSQL; we give a
shallow embedding of its data model (users, deliveries, productions) and of the
request handlers that the specification's claims are about.  SQL tables are
modelled as Lean lists, `SERIAL` ids as explicit counters, upserts
(`ON CONFLICT ... DO UPDATE`) as find-and-overwrite, transactions as explicit
pending state that is only kept at a commit point, and user-visible outcomes as
the `flash(message, category)` calls the handlers make.  Python runtime errors
that the (broken) login handler raises are modelled with `Except`.
-/

namespace Milkman

/-- ASCII case-folding of a character, modelling Python `str.lower()` on the
ASCII inputs this application handles. -/
def pyLowerChar (c : Char) : Char :=
  if 'A' ≤ c ∧ c ≤ 'Z' then Char.ofNat (c.toNat + 32) else c

/-- Python `str.lower()`. -/
def pyLower (s : String) : String := String.mk (s.data.map pyLowerChar)

/-- The whitespace characters Python `str.strip()` removes (ASCII range). -/
def isPySpace (c : Char) : Bool :=
  c == ' ' || c == '\t' || c == '\n' || c == '\r' || c == '\x0b' || c == '\x0c'

/-- Python `str.strip()`: drop leading and trailing whitespace. -/
def pyStrip (s : String) : String :=
  String.mk (((s.data.dropWhile isPySpace).reverse.dropWhile isPySpace).reverse)

/-- The opaque one-way password hashing primitive
(`werkzeug.security.generate_password_hash`), modelled as an injective tag. -/
def generate_password_hash (pw : String) : String :=
  "pbkdf2-sha256$" ++ pw

/-- The opaque verify operation (`werkzeug.security.check_password_hash`):
confirms a password against a stored hash. -/
def check_password_hash (stored pw : String) : Bool :=
  stored == generate_password_hash pw

/-- A row of the `users` table: `users(id, name, email UNIQUE, password_hash, role)`. -/
structure User where
  id : Nat
  name : String
  email : String
  password_hash : String
  role : String
deriving DecidableEq

/-- A row of the `deliveries` table:
`deliveries(id, user_id FK, date, liters, UNIQUE(user_id, date))`. -/
structure Delivery where
  id : Nat
  user_id : Nat
  date : String
  liters : ℚ
deriving DecidableEq

/-- A row of the `productions` table: `productions(id, date UNIQUE, total_liters)`. -/
structure Production where
  id : Nat
  date : String
  total_liters : ℚ
deriving DecidableEq

/-- The database state: the three tables plus the `SERIAL` id counters. -/
structure DB where
  users : List User
  deliveries : List Delivery
  productions : List Production
  nextUserId : Nat
  nextDeliveryId : Nat
  nextProductionId : Nat
deriving DecidableEq

/-- The freshly created database (after `schema.sql`, before any insert). -/
def emptyDB : DB :=
  { users := [], deliveries := [], productions := [],
    nextUserId := 1, nextDeliveryId := 1, nextProductionId := 1 }

/-- A `flash(message, category)` call, the way handlers report outcomes. -/
structure Flash where
  message : String
  category : String
deriving DecidableEq

/-- The default-admin bootstrap inside `init_db` (app.py lines 42-47): query for
the sentinel email `admin@milk.local`; insert the default admin row only when
the query returns no row. -/
def bootstrap_default_admin (db : DB) : DB :=
  if db.users.any (fun u => u.email == "admin@milk.local") then db
  else
    { db with
      users := db.users ++
        [{ id := db.nextUserId, name := "Admin", email := "admin@milk.local",
           password_hash := generate_password_hash "admin123", role := "admin" }],
      nextUserId := db.nextUserId + 1 }

/-- The database as seeded by `init_db` on first run. -/
def dbSeeded : DB := bootstrap_default_admin emptyDB

/-- The `register` POST handler (app.py lines 87-107): strip the name, strip and
lowercase the email, require all fields non-empty and the role to be one of
`admin`/`user`, then insert; a duplicate email violates the UNIQUE constraint,
is rolled back, and flashes an error.  The route carries no auth decorator. -/
def register_post (db : DB) (rawName rawEmail pw role : String) : DB × Flash :=
  let name := pyStrip rawName
  let email := pyLower (pyStrip rawEmail)
  if name == "" || email == "" || pw == "" || !(role == "admin" || role == "user") then
    (db, { message := "Please fill all fields correctly.", category := "error" })
  else if db.users.any (fun u => u.email == email) then
    (db, { message := "Email already registered.", category := "error" })
  else
    ({ db with
        users := db.users ++
          [{ id := db.nextUserId, name := name, email := email,
             password_hash := generate_password_hash pw, role := role }],
        nextUserId := db.nextUserId + 1 },
     { message := "Account created. Please log in.", category := "success" })

/-- The names bound at module level in app.py (imports at lines 1-7, module
globals, and the module-level `def`s).  Note `import psycopg2.extras` binds only
the name `psycopg2`; `RealDictCursor` is never bound. -/
def moduleBoundNames : List String :=
  ["os", "psycopg2", "argparse", "date",
   "Flask", "render_template", "request", "redirect", "url_for", "session",
   "flash", "g",
   "generate_password_hash", "check_password_hash",
   "APP_SECRET", "DATABASE_URL", "app",
   "get_db", "close_db", "init_db",
   "login_required", "role_required",
   "home", "register", "login", "logout", "profile",
   "user_dashboard", "add_delivery", "delete_delivery",
   "admin_dashboard", "admin_production", "delete_production",
   "admin_deliveries"]

/-- A Python exception escaping a handler (rendered as a generic 500 error). -/
inductive PyError where
  | nameError (n : String)
  | keyError (k : String)
deriving DecidableEq

/-- Row access `user[k]` on a `RealDictCursor` row of the `users` table: the
row's keys are exactly the column names of the table. -/
def userRowGet (u : User) (k : String) : Option String :=
  if k == "name" then some u.name
  else if k == "email" then some u.email
  else if k == "password_hash" then some u.password_hash
  else if k == "role" then some u.role
  else none

/-- What a successful or failed login reports. -/
inductive LoginOutcome where
  | success (user_id : Nat) (role : String)
  | invalidCredentials
deriving DecidableEq

/-- The lookup the `login` handler issues (app.py line 119):
`SELECT * FROM users WHERE email = %s`, with the raw form value from line 114 —
no `.strip()` or `.lower()` is applied to the submitted email. -/
def login_lookup (db : DB) (rawEmail : String) : Option User :=
  db.users.find? (fun u => u.email == rawEmail)

/-- The `login` POST handler (app.py lines 113-131), faithfully including its
runtime errors: line 118 evaluates the bare name `RealDictCursor`, which is not
bound at module level (only `psycopg2.extras` is imported), raising `NameError`
before any query runs; and even past that, line 124 reads `user['password']`,
a key the `users` row does not have (the column is `password_hash`), raising
`KeyError` whenever a user row is found. -/
def login_post (db : DB) (rawEmail pw : String) : Except PyError LoginOutcome :=
  if "RealDictCursor" ∈ moduleBoundNames then
    match login_lookup db rawEmail with
    | some user =>
      match userRowGet user "password" with
      | some stored =>
        if check_password_hash stored pw then
          Except.ok (LoginOutcome.success user.id user.role)
        else
          Except.ok LoginOutcome.invalidCredentials
      | none => Except.error (PyError.keyError "password")
    | none => Except.ok LoginOutcome.invalidCredentials
  else
    Except.error (PyError.nameError "RealDictCursor")

/-- The Flask session cookie's two identity keys, as set by `login`
(`session['user_id']`, `session['role']`); `none` when the key is absent. -/
structure Session where
  user_id : Option Nat
  role : Option String
deriving DecidableEq

/-- Python truthiness of `session.get("user_id")`: the key must be present and
its integer value non-zero (`if not session.get("user_id")`). -/
def truthyId : Option Nat → Bool
  | none => false
  | some n => !(n == 0)

/-- What a guarded handler produces: either a redirect to the login page with an
optional flashed notice, or the protected page content. -/
inductive Response (α : Type) where
  | redirectLogin (notice : Option String)
  | page (content : α)
deriving DecidableEq

/-- The `login_required` decorator (app.py lines 56-63): if
`session.get("user_id")` is falsy, redirect to the login page (no notice);
otherwise run the wrapped handler. -/
def login_required {α : Type} (f : Session → Response α) : Session → Response α :=
  fun s =>
    if !(truthyId s.user_id) then Response.redirectLogin none
    else f s

/-- The `role_required(role)` decorator (app.py lines 65-75): if
`session.get("role")` differs from the required role, flash `Not authorized.`
and redirect to the login page; otherwise run the wrapped handler. -/
def role_required {α : Type} (role : String) (f : Session → Response α) :
    Session → Response α :=
  fun s =>
    if s.role != some role then Response.redirectLogin (some "Not authorized.")
    else f s

/-- A role-gated route as written in app.py: `@login_required` stacked above
`@role_required(role)`, so the authentication check wraps (and runs before) the
role check. -/
def guardedRoute {α : Type} (role : String) (f : Session → Response α) :
    Session → Response α :=
  login_required (role_required role f)

/-- The statistics the `admin_dashboard` handler computes (app.py lines
221-233): count of all users, `COALESCE(SUM(total_liters), 0)` over
productions, count of all deliveries. -/
def dashboard_stats (db : DB) : Nat × ℚ × Nat :=
  (db.users.length, (db.productions.map (fun p => p.total_liters)).sum,
   db.deliveries.length)

/-- The `/admin` route: the stats page wrapped in `@login_required` and
`@role_required("admin")`. -/
def admin_dashboard (db : DB) : Session → Response (Nat × ℚ × Nat) :=
  guardedRoute "admin" (fun _ => Response.page (dashboard_stats db))

/-- Does a deliveries row match the upsert/join key `(user_id, date)`? -/
def keyMatch (uid : Nat) (d : String) (r : Delivery) : Bool :=
  r.user_id == uid && r.date == d

/-- The upsert issued by `add_delivery` (app.py lines 197-201):
`INSERT INTO deliveries ... ON CONFLICT(user_id, date) DO UPDATE SET
liters=EXCLUDED.liters` — overwrite the liters of the conflicting row if one
exists, otherwise insert a fresh row. -/
def upsertDelivery (db : DB) (uid : Nat) (d : String) (v : ℚ) : DB :=
  if db.deliveries.any (keyMatch uid d) then
    { db with
      deliveries := db.deliveries.map
        (fun r => if keyMatch uid d r then { r with liters := v } else r) }
  else
    { db with
      deliveries := db.deliveries ++
        [{ id := db.nextDeliveryId, user_id := uid, date := d, liters := v }],
      nextDeliveryId := db.nextDeliveryId + 1 }

/-- The `add_delivery` POST handler (app.py lines 185-204).  The form value for
liters goes through `float(...)`; per the spec's design notes the implicit
`try/except`-based parse is modelled as an explicit `Option ℚ` parse result
(`none` when `float()` raises `ValueError`).  A failed parse or a negative
value flashes a validation error and leaves the database untouched; otherwise
the upsert runs and is committed. -/
def add_delivery (db : DB) (uid : Nat) (d : String) (parsedLiters : Option ℚ) :
    DB × Flash :=
  match parsedLiters with
  | none => (db, { message := "Enter valid liters.", category := "error" })
  | some v =>
    if v < 0 then (db, { message := "Enter valid liters.", category := "error" })
    else (upsertDelivery db uid d v,
          { message := "Delivery updated.", category := "success" })

/-- The `delete_delivery` handler (app.py lines 209-215):
`DELETE FROM deliveries WHERE id = %s AND user_id = %s` with the caller's
session user id, then unconditionally flash `Deleted.` with category
`success`. -/
def delete_delivery (db : DB) (delivery_id uid : Nat) : DB × Flash :=
  ({ db with
      deliveries := db.deliveries.filter
        (fun r => !(r.id == delivery_id && r.user_id == uid)) },
   { message := "Deleted.", category := "success" })

/-- The upsert issued by `admin_production` (app.py lines 252-256):
`INSERT INTO productions ... ON CONFLICT(date) DO UPDATE SET
total_liters=EXCLUDED.total_liters`. -/
def upsertProduction (db : DB) (d : String) (v : ℚ) : DB :=
  if db.productions.any (fun p => p.date == d) then
    { db with
      productions := db.productions.map
        (fun p => if p.date == d then { p with total_liters := v } else p) }
  else
    { db with
      productions := db.productions ++
        [{ id := db.nextProductionId, date := d, total_liters := v }],
      nextProductionId := db.nextProductionId + 1 }

/-- The POST branch of `admin_production` (app.py lines 242-258): same
`float(...)`-and-non-negative validation as `add_delivery` (parse modelled as
`Option ℚ`), then the production upsert keyed on the date. -/
def admin_production_post (db : DB) (d : String) (parsedTotal : Option ℚ) :
    DB × Flash :=
  match parsedTotal with
  | none => (db, { message := "Enter valid liters.", category := "error" })
  | some v =>
    if v < 0 then (db, { message := "Enter valid liters.", category := "error" })
    else (upsertProduction db d v,
          { message := "Production updated.", category := "success" })

/-- Would the `UPDATE users SET name=..., email=...` statement in `profile`
violate the UNIQUE(email) constraint: some other user already holds the target
email. -/
def emailTakenByOther (db : DB) (uid : Nat) (email : String) : Bool :=
  db.users.any (fun u => !(u.id == uid) && u.email == email)

/-- The uncommitted effect of `UPDATE users SET name=%s, email=%s WHERE id=%s`. -/
def setNameEmail (db : DB) (uid : Nat) (name email : String) : DB :=
  { db with
    users := db.users.map
      (fun u => if u.id == uid then { u with name := name, email := email } else u) }

/-- The uncommitted effect of `UPDATE users SET password_hash=%s WHERE id=%s`. -/
def setPasswordHash (db : DB) (uid : Nat) (h : String) : DB :=
  { db with
    users := db.users.map
      (fun u => if u.id == uid then { u with password_hash := h } else u) }

/-- The POST branch of `profile` (app.py lines 148-169).  The name is stripped
and the email stripped and lowercased; empty name/email redirects with an
error.  The name/email UPDATE runs first inside the transaction — a duplicate
email raises `UniqueViolation` at that statement, and the `except` branch rolls
the transaction back.  If a new password is supplied but the confirmation
differs, the handler returns before `db.commit()`, so the request-scoped
connection is closed with the transaction uncommitted and the pending name/email
update is discarded (implicit rollback).  Only the final `db.commit()` makes
any change durable. -/
def profile_post (db : DB) (uid : Nat)
    (rawName rawEmail new_password confirm : String) : DB × Flash :=
  let name := pyStrip rawName
  let email := pyLower (pyStrip rawEmail)
  if name == "" || email == "" then
    (db, { message := "Name and email are required.", category := "error" })
  else if emailTakenByOther db uid email then
    (db, { message := "Email already exists.", category := "error" })
  else
    let pending := setNameEmail db uid name email
    if !(new_password == "") then
      if !(new_password == confirm) then
        (db, { message := "Passwords do not match.", category := "error" })
      else
        (setPasswordHash pending uid (generate_password_hash new_password),
         { message := "Profile updated.", category := "success" })
    else
      (pending, { message := "Profile updated.", category := "success" })

/-- The `LEFT JOIN deliveries d ON u.id = d.user_id AND d.date = %s` rows a
single `users` row contributes, projected to `u.name, COALESCE(d.liters, 0)`:
one row per matching delivery, or a single row with liters 0 when none
matches. -/
def leftJoinDeliveries (db : DB) (picked : String) (u : User) :
    List (String × ℚ) :=
  match db.deliveries.filter (keyMatch u.id picked) with
  | [] => [(u.name, 0)]
  | rs => rs.map (fun r => (u.name, r.liters))

/-- Lexicographic codepoint comparison of character lists: the model of the SQL
collation used by `ORDER BY`. -/
def charListLeb : List Char → List Char → Bool
  | [], _ => true
  | _ :: _, [] => false
  | a :: as, b :: bs =>
    if a.toNat == b.toNat then charListLeb as bs
    else decide (a.toNat < b.toNat)

/-- String comparison for `ORDER BY u.name` (ascending). -/
def strLeb (a b : String) : Bool := charListLeb a.data b.data

/-- Insert a user row into a name-sorted list, keeping it sorted. -/
def insertByName (u : User) : List User → List User
  | [] => [u]
  | v :: vs => if strLeb u.name v.name then u :: v :: vs else v :: insertByName u vs

/-- Model of `ORDER BY u.name` over a list of user rows (insertion sort,
ascending). -/
def sortByName : List User → List User
  | [] => []
  | u :: us => insertByName u (sortByName us)

/-- The breakdown query of `admin_deliveries` (app.py lines 279-292): take the
`date` query parameter (default `""`), strip it; when empty, the breakdown is
`[]`; otherwise left-join `users` (restricted to `role = 'user'`) against
`deliveries` filtered to that date, `ORDER BY u.name`. -/
def delivery_breakdown (db : DB) (dateArg : Option String) :
    List (String × ℚ) :=
  let picked := pyStrip (dateArg.getD "")
  if picked == "" then []
  else
    (sortByName (db.users.filter (fun u => u.role == "user"))).flatMap
      (leftJoinDeliveries db picked)

/-- The liters value the spec attributes to a user on a date: the row's value
when a delivery row exists for `(user, date)`, else `0`. -/
def litersFor (db : DB) (uid : Nat) (d : String) : ℚ :=
  match db.deliveries.find? (keyMatch uid d) with
  | some r => r.liters
  | none => 0

/-- The `UNIQUE(user_id, date)` constraint of the `deliveries` table: no two
rows share the key. -/
def DeliveriesKeyUnique (db : DB) : Prop :=
  db.deliveries.Pairwise (fun a b => ¬(a.user_id = b.user_id ∧ a.date = b.date))

/-- Sample rows for concrete-instance checks. -/
def aliceUser : User :=
  { id := 2, name := "Alice", email := "alice@x.com",
    password_hash := generate_password_hash "pwA", role := "user" }

def bobUser : User :=
  { id := 3, name := "Bob", email := "bob@x.com",
    password_hash := generate_password_hash "pwB", role := "user" }

def caraUser : User :=
  { id := 4, name := "Cara", email := "cara@x.com",
    password_hash := generate_password_hash "pwC", role := "user" }

/-- A sample database: the seeded admin, three regular users, one delivery of
Bob on 2024-01-15. -/
def dbSample : DB :=
  { users := dbSeeded.users ++ [aliceUser, bobUser, caraUser],
    deliveries := [{ id := 1, user_id := 3, date := "2024-01-15", liters := 5 }],
    productions := [],
    nextUserId := 5, nextDeliveryId := 2, nextProductionId := 1 }

@[simp] theorem keyMatch_eq_true {uid : Nat} {d : String} {r : Delivery} :
    keyMatch uid d r = true ↔ r.user_id = uid ∧ r.date = d := by
  simp [keyMatch]

/-- Claim C1 (code bug): the spec says the `POST /login` handler succeeds
exactly when a user row exists for the email and the verify function confirms
the password, and answers a generic invalid-credentials failure otherwise.  The
handler as written can do neither: line 118 evaluates the unbound name
`RealDictCursor` and raises `NameError` on every POST (and line 124 would read
the non-existent row key `password`), so even the seeded admin's correct
credentials produce an unhandled exception, never a session. -/
theorem login_crashes_despite_valid_credentials :
    (dbSeeded.users.any fun u =>
      u.email == "admin@milk.local" && check_password_hash u.password_hash "admin123") = true ∧
    login_post dbSeeded "admin@milk.local" "admin123" =
      Except.error (PyError.nameError "RealDictCursor") ∧
    (∀ db : DB, ∀ rawEmail pw : String,
      login_post db rawEmail pw = Except.error (PyError.nameError "RealDictCursor")) := by
  refine ⟨by rfl, by rfl, fun db rawEmail pw => ?_⟩
  have h : ("RealDictCursor" ∈ moduleBoundNames) = False := by
    simp [moduleBoundNames]
  simp [login_post, h]

/-- Claim C7 (code bug): the spec says login looks the account up by the
normalized (stripped, lowercased) email.  The query the handler issues uses the
raw form value: the seeded account `admin@milk.local` is found by the exact
stored string only, while a case variant or a whitespace-padded variant finds
nothing — normalizing first would have found it. -/
theorem login_lookup_uses_raw_email :
    (login_lookup dbSeeded "admin@milk.local").isSome = true ∧
    login_lookup dbSeeded "Admin@Milk.Local" = none ∧
    login_lookup dbSeeded " admin@milk.local " = none ∧
    (login_lookup dbSeeded (pyLower (pyStrip "Admin@Milk.Local"))).isSome = true ∧
    (login_lookup dbSeeded (pyLower (pyStrip " admin@milk.local "))).isSome = true := by
  exact ⟨by rfl, by rfl, by rfl, by rfl, by rfl⟩

/-- Claim C2: on a role-gated route the `login_required` wrapper runs before the
`role_required` wrapper.  A request with no resolved identity is redirected to
the login page with no notice; an authenticated request with the wrong role is
redirected to the login page with the `Not authorized.` notice; in both cases
the response is the same for every wrapped handler, so the handler neither
executes nor leaks protected data. -/
theorem guard_checks_auth_before_role {α : Type} (role : String)
    (f g : Session → Response α) (s : Session) :
    (truthyId s.user_id = false →
      guardedRoute role f s = Response.redirectLogin none ∧
      guardedRoute role f s = guardedRoute role g s) ∧
    (truthyId s.user_id = true → s.role ≠ some role →
      guardedRoute role f s = Response.redirectLogin (some "Not authorized.") ∧
      guardedRoute role f s = guardedRoute role g s) := by
  constructor
  · intro h
    constructor <;> simp [guardedRoute, login_required, h]
  · intro h hr
    constructor <;>
      simp [guardedRoute, login_required, role_required, h, bne_iff_ne, hr]

/-- Concrete instance of the guard theorem: an anonymous session (even one
claiming the admin role) is redirected without a notice, and an authenticated
user-role session is redirected with the `Not authorized.` notice; the `/admin`
stats page content plays no part in either response. -/
theorem guard_checks_auth_before_role_witness :
    guardedRoute "admin" (fun _ => Response.page 1)
        { user_id := none, role := some "admin" } =
      Response.redirectLogin none ∧
    guardedRoute "admin" (fun _ => Response.page 1)
        { user_id := some 5, role := some "user" } =
      Response.redirectLogin (some "Not authorized.") :=
  ⟨((guard_checks_auth_before_role "admin" (fun _ => Response.page 1)
      (fun _ => Response.page 2)
      { user_id := none, role := some "admin" }).1 (by decide)).1,
   ((guard_checks_auth_before_role "admin" (fun _ => Response.page 1)
      (fun _ => Response.page 2)
      { user_id := some 5, role := some "user" }).2 (by decide) (by decide)).1⟩

/-- Claim C5: both record operations (`add_delivery` and the POST branch of
`admin_production`) reject a liters input that does not parse as a number or
parses negative, flashing the validation error and leaving the database
unchanged; the upsert runs exactly when the parsed value is at least 0. -/
theorem record_validates_liters (db : DB) (uid : Nat) (d : String)
    (p q : Option ℚ) :
    (p = none → add_delivery db uid d p =
      (db, { message := "Enter valid liters.", category := "error" })) ∧
    (∀ v : ℚ, p = some v → v < 0 → add_delivery db uid d p =
      (db, { message := "Enter valid liters.", category := "error" })) ∧
    (∀ v : ℚ, p = some v → 0 ≤ v → add_delivery db uid d p =
      (upsertDelivery db uid d v,
        { message := "Delivery updated.", category := "success" })) ∧
    (q = none → admin_production_post db d q =
      (db, { message := "Enter valid liters.", category := "error" })) ∧
    (∀ v : ℚ, q = some v → v < 0 → admin_production_post db d q =
      (db, { message := "Enter valid liters.", category := "error" })) ∧
    (∀ v : ℚ, q = some v → 0 ≤ v → admin_production_post db d q =
      (upsertProduction db d v,
        { message := "Production updated.", category := "success" })) := by
  refine ⟨fun hp => by simp [add_delivery, hp],
          fun v hp hv => by simp [add_delivery, hp, hv],
          fun v hp hv => by simp [add_delivery, hp, not_lt.mpr hv],
          fun hq => by simp [admin_production_post, hq],
          fun v hq hv => by simp [admin_production_post, hq, hv],
          fun v hq hv => by simp [admin_production_post, hq, not_lt.mpr hv]⟩

/-- Concrete instance of the validation theorem: a failed parse and a negative
value both leave the sample database untouched with the validation error, and a
non-negative value performs the upsert. -/
theorem record_validates_liters_witness :
    add_delivery dbSample 3 "2024-01-16" none =
      (dbSample, { message := "Enter valid liters.", category := "error" }) ∧
    admin_production_post dbSample "2024-01-16" (some (-2)) =
      (dbSample, { message := "Enter valid liters.", category := "error" }) ∧
    add_delivery dbSample 3 "2024-01-16" (some 4) =
      (upsertDelivery dbSample 3 "2024-01-16" 4,
        { message := "Delivery updated.", category := "success" }) :=
  ⟨(record_validates_liters dbSample 3 "2024-01-16" none none).1 rfl,
   ((record_validates_liters dbSample 3 "2024-01-16" none (some (-2))).2.2.2.2.1 (-2)
      rfl (by norm_num)),
   ((record_validates_liters dbSample 3 "2024-01-16" (some 4) none).2.2.1 4
      rfl (by norm_num))⟩

/-- Claim C6: the profile update is all-or-nothing.  A supplied new password
with a non-matching confirmation makes the handler return before `db.commit()`,
so the pending name/email update is discarded and the stored row is unchanged;
a duplicate email raises `UniqueViolation` at the UPDATE and the `except`
branch rolls the whole transaction back, likewise leaving the row unchanged. -/
theorem profile_update_atomic (db : DB) (uid : Nat)
    (rawName rawEmail np cf : String) :
    (np ≠ "" → np ≠ cf → (profile_post db uid rawName rawEmail np cf).1 = db) ∧
    (emailTakenByOther db uid (pyLower (pyStrip rawEmail)) = true →
      (profile_post db uid rawName rawEmail np cf).1 = db) := by
  constructor
  · intro hnp hcf
    by_cases h1 : (pyStrip rawName == "" || pyLower (pyStrip rawEmail) == "") = true
    · simp [profile_post, h1]
    · by_cases h2 : emailTakenByOther db uid (pyLower (pyStrip rawEmail)) = true
      · simp [profile_post, h1, h2]
      · simp [profile_post, h1, h2, hnp, hcf]
  · intro h2
    by_cases h1 : (pyStrip rawName == "" || pyLower (pyStrip rawEmail) == "") = true
    · simp [profile_post, h1]
    · simp [profile_post, h1, h2]

/-- Concrete instance of the atomicity theorem: a mismatched confirmation and a
collision with the admin's email each leave the sample database unchanged. -/
theorem profile_update_atomic_witness :
    (profile_post dbSample 2 "Alicia" "alice@x.com" "new1" "new2").1 = dbSample ∧
    (profile_post dbSample 2 "Alicia" "Admin@Milk.Local" "" "").1 = dbSample :=
  ⟨(profile_update_atomic dbSample 2 "Alicia" "alice@x.com" "new1" "new2").1
      (by decide) (by decide),
   (profile_update_atomic dbSample 2 "Alicia" "Admin@Milk.Local" "" "").2
      (by decide)⟩

theorem filter_keep_idem {α : Type} (p : α → Bool) (l : List α) :
    (l.filter p).filter p = l.filter p :=
  List.filter_eq_self.mpr (fun _ ha => List.of_mem_filter ha)

/-- Claim C4: `delete_delivery` issues
`DELETE FROM deliveries WHERE id = %s AND user_id = %s`, so a row disappears
only when both its id and its owner match the caller; when no owned row has the
id (absent or owned by someone else) nothing is removed and the database is
unchanged; other users' delivery rows are never touched; the handler flashes
`Deleted.`/`success` unconditionally; and repeating the delete changes
nothing. -/
theorem delete_delivery_owner_scoped (db : DB) (did uid : Nat) :
    ((delete_delivery db did uid).2 =
      { message := "Deleted.", category := "success" }) ∧
    (∀ r ∈ db.deliveries, r ∉ (delete_delivery db did uid).1.deliveries →
      r.id = did ∧ r.user_id = uid) ∧
    ((∀ r ∈ db.deliveries, ¬(r.id = did ∧ r.user_id = uid)) →
      (delete_delivery db did uid).1 = db) ∧
    (∀ v : Nat, v ≠ uid →
      (delete_delivery db did uid).1.deliveries.filter (fun r => r.user_id == v) =
        db.deliveries.filter (fun r => r.user_id == v)) ∧
    ((delete_delivery db did uid).1.users = db.users ∧
      (delete_delivery db did uid).1.productions = db.productions) ∧
    ((delete_delivery (delete_delivery db did uid).1 did uid).1 =
      (delete_delivery db did uid).1) := by
  refine ⟨rfl, ?_, ?_, ?_, ⟨rfl, rfl⟩, ?_⟩
  · intro r hr hnr
    by_cases h1 : r.id = did
    · by_cases h2 : r.user_id = uid
      · exact ⟨h1, h2⟩
      · exact absurd (List.mem_filter.mpr ⟨hr, by simp [h2]⟩) hnr
    · exact absurd (List.mem_filter.mpr ⟨hr, by simp [h1]⟩) hnr
  · intro h
    have hfil : db.deliveries.filter
        (fun r => !(r.id == did && r.user_id == uid)) = db.deliveries := by
      refine List.filter_eq_self.mpr (fun r hr => ?_)
      by_cases h1 : r.id = did
      · by_cases h2 : r.user_id = uid
        · exact absurd ⟨h1, h2⟩ (h r hr)
        · simp [h2]
      · simp [h1]
    show ({ db with deliveries := db.deliveries.filter (fun r => !(r.id == did && r.user_id == uid)) } : DB) = db
    rw [hfil]
  · intro v hv
    show (db.deliveries.filter _).filter _ = _
    rw [List.filter_filter]
    refine List.filter_congr (fun r _ => ?_)
    by_cases hu : r.user_id = v
    · simp [hu, hv]
    · simp [hu]
  · exact congrArg
      (fun l => ({ (delete_delivery db did uid).1 with deliveries := l } : DB))
      (filter_keep_idem _ db.deliveries)

/-- Concrete instance of the delete theorem: deleting Bob's delivery id 1 with
Alice's user id 2 is a no-op that still reports success, and Bob's rows are
untouched. -/
theorem delete_delivery_owner_scoped_witness :
    (delete_delivery dbSample 1 2).1 = dbSample ∧
    (delete_delivery dbSample 1 2).2 =
      { message := "Deleted.", category := "success" } ∧
    (delete_delivery dbSample 1 2).1.deliveries.filter (fun r => r.user_id == 3) =
      dbSample.deliveries.filter (fun r => r.user_id == 3) :=
  ⟨(delete_delivery_owner_scoped dbSample 1 2).2.2.1 (by decide),
   (delete_delivery_owner_scoped dbSample 1 2).1,
   (delete_delivery_owner_scoped dbSample 1 2).2.2.2.1 3 (by decide)⟩

/-- Claim C9: the default-admin bootstrap inserts the sentinel account only
when no user with the sentinel email exists, is idempotent, and (under the
store's email uniqueness, i.e. at most one row per email) always leaves exactly
one sentinel admin account no matter how many times it runs. -/
theorem bootstrap_idempotent_single_admin (db : DB)
    (h : (db.users.filter (fun u => u.email == "admin@milk.local")).length ≤ 1) :
    bootstrap_default_admin (bootstrap_default_admin db) =
      bootstrap_default_admin db ∧
    ((bootstrap_default_admin db).users.filter
        (fun u => u.email == "admin@milk.local")).length = 1 ∧
    ((db.users.any fun u => u.email == "admin@milk.local") = true →
      bootstrap_default_admin db = db) := by
  by_cases hAny : (db.users.any fun u => u.email == "admin@milk.local") = true
  · have h1 : bootstrap_default_admin db = db := by
      simp [bootstrap_default_admin, hAny]
    obtain ⟨u, hu, hmatch⟩ := List.any_eq_true.mp hAny
    have hmem : u ∈ db.users.filter (fun u => u.email == "admin@milk.local") :=
      List.mem_filter.mpr ⟨hu, hmatch⟩
    have hge : 1 ≤ (db.users.filter
        (fun u => u.email == "admin@milk.local")).length :=
      List.length_pos.mpr (List.ne_nil_of_mem hmem)
    exact ⟨by rw [h1, h1], by rw [h1]; omega, fun _ => h1⟩
  · have hAnyF : (db.users.any fun u => u.email == "admin@milk.local") = false :=
      Bool.eq_false_iff.mpr hAny
    have hfil : db.users.filter (fun u => u.email == "admin@milk.local") = [] := by
      refine List.filter_eq_nil_iff.mpr (fun u hu => ?_)
      exact List.any_eq_false.mp hAnyF u hu
    have h1 : bootstrap_default_admin db =
        { db with
          users := db.users ++
            [{ id := db.nextUserId, name := "Admin", email := "admin@milk.local",
               password_hash := generate_password_hash "admin123",
               role := "admin" }],
          nextUserId := db.nextUserId + 1 } := by
      simp [bootstrap_default_admin, hAny]
    constructor
    · rw [h1]
      have hAny2 : (({ db with
          users := db.users ++
            [{ id := db.nextUserId, name := "Admin", email := "admin@milk.local",
               password_hash := generate_password_hash "admin123",
               role := "admin" }],
          nextUserId := db.nextUserId + 1 } : DB).users.any
            fun u => u.email == "admin@milk.local") = true := by
        simp
      simp [bootstrap_default_admin, hAny2]
    constructor
    · rw [h1]
      simp [List.filter_append, hfil]
    · intro hc
      exact absurd hc hAny

/-- Concrete instance of the bootstrap theorem: seeding the empty database and
seeding it again both yield the one-admin state. -/
theorem bootstrap_idempotent_single_admin_witness :
    bootstrap_default_admin dbSeeded = dbSeeded ∧
    (dbSeeded.users.filter (fun u => u.email == "admin@milk.local")).length = 1 :=
  ⟨(bootstrap_idempotent_single_admin emptyDB (by decide)).1,
   (bootstrap_idempotent_single_admin emptyDB (by decide)).2.1⟩

/-- Claim C10: the `/register` route carries no `login_required` or
`role_required` decorator, and its handler accepts the self-selected role
`admin` (`role not in ["admin", "user"]` is the only role check).  With
non-empty fields and a fresh email, an anonymous registration with role
`admin` inserts a brand-new administrator account. -/
theorem register_allows_admin_role (db : DB) (rawName rawEmail pw : String)
    (hn : pyStrip rawName ≠ "") (he : pyLower (pyStrip rawEmail) ≠ "")
    (hp : pw ≠ "")
    (hdup : (db.users.any fun u => u.email == pyLower (pyStrip rawEmail)) = false) :
    (register_post db rawName rawEmail pw "admin").1.users =
      db.users ++
        [{ id := db.nextUserId, name := pyStrip rawName,
           email := pyLower (pyStrip rawEmail),
           password_hash := generate_password_hash pw, role := "admin" }] ∧
    (register_post db rawName rawEmail pw "admin").2 =
      { message := "Account created. Please log in.", category := "success" } := by
  constructor <;> simp [register_post, hn, he, hp, hdup]

/-- Concrete instance of the registration theorem: an anonymous registration
with role `admin` and a fresh email adds an admin account to the sample
database. -/
theorem register_allows_admin_role_witness :
    (register_post dbSample "Eve" " EVE@x.com " "pwE" "admin").1.users =
      dbSample.users ++
        [{ id := 5, name := "Eve", email := "eve@x.com",
           password_hash := generate_password_hash "pwE", role := "admin" }] ∧
    (register_post dbSample "Eve" " EVE@x.com " "pwE" "admin").2 =
      { message := "Account created. Please log in.", category := "success" } :=
  register_allows_admin_role dbSample "Eve" " EVE@x.com " "pwE"
    (by decide) (by decide) (by decide) (by decide)

theorem charListLeb_total : ∀ as bs : List Char,
    charListLeb as bs = true ∨ charListLeb bs as = true
  | [], _ => Or.inl rfl
  | _ :: _, [] => Or.inr rfl
  | a :: as, b :: bs => by
    by_cases h : a.toNat = b.toNat
    · rcases charListLeb_total as bs with h1 | h1
      · exact Or.inl (by simp [charListLeb, h, h1])
      · exact Or.inr (by simp [charListLeb, h.symm, h1])
    · rcases Nat.lt_or_ge a.toNat b.toNat with h1 | h1
      · exact Or.inl (by simp [charListLeb, h, h1])
      · have h2 : b.toNat < a.toNat := lt_of_le_of_ne h1 (Ne.symm h)
        exact Or.inr (by simp [charListLeb, Ne.symm h, h2])

theorem charListLeb_trans : ∀ as bs cs : List Char,
    charListLeb as bs = true → charListLeb bs cs = true → charListLeb as cs = true
  | [], _, _ => fun _ _ => rfl
  | _ :: _, [], _ => fun h1 _ => absurd h1 (by simp [charListLeb])
  | _ :: _, _ :: _, [] => fun _ h2 => absurd h2 (by simp [charListLeb])
  | a :: as, b :: bs, c :: cs => fun h1 h2 => by
    by_cases hab : a.toNat = b.toNat
    · by_cases hbc : b.toNat = c.toNat
      · simp only [charListLeb, hab, hbc, beq_self_eq_true, if_true] at h1 h2
        have hac : a.toNat = c.toNat := hab.trans hbc
        simpa [charListLeb, hac] using charListLeb_trans as bs cs h1 h2
      · simp only [charListLeb, beq_iff_eq, hbc, if_false, decide_eq_true_eq] at h2
        have hac : a.toNat < c.toNat := hab ▸ h2
        simp [charListLeb, Nat.ne_of_lt hac, hac]
    · simp only [charListLeb, beq_iff_eq, hab, if_false, decide_eq_true_eq] at h1
      by_cases hbc : b.toNat = c.toNat
      · have hac : a.toNat < c.toNat := hbc ▸ h1
        simp [charListLeb, Nat.ne_of_lt hac, hac]
      · simp only [charListLeb, beq_iff_eq, hbc, if_false, decide_eq_true_eq] at h2
        have hac : a.toNat < c.toNat := h1.trans h2
        simp [charListLeb, Nat.ne_of_lt hac, hac]

theorem strLeb_total (a b : String) : strLeb a b = true ∨ strLeb b a = true :=
  charListLeb_total a.data b.data

theorem strLeb_trans {a b c : String} (h1 : strLeb a b = true)
    (h2 : strLeb b c = true) : strLeb a c = true :=
  charListLeb_trans a.data b.data c.data h1 h2

theorem insertByName_perm (u : User) (l : List User) :
    List.Perm (insertByName u l) (u :: l) := by
  induction l with
  | nil => exact List.Perm.refl _
  | cons v vs ih =>
    by_cases h : strLeb u.name v.name = true
    · simp [insertByName, h]
    · simp only [insertByName, h, if_false]
      exact (List.Perm.cons v ih).trans (List.Perm.swap u v vs)

theorem sortByName_perm (l : List User) : List.Perm (sortByName l) l := by
  induction l with
  | nil => exact List.Perm.refl _
  | cons u us ih =>
    exact (insertByName_perm u (sortByName us)).trans (List.Perm.cons u ih)

theorem mem_insertByName {x u : User} {l : List User} :
    x ∈ insertByName u l ↔ x = u ∨ x ∈ l := by
  rw [(insertByName_perm u l).mem_iff]
  simp

theorem insertByName_sorted (u : User) (l : List User)
    (h : l.Pairwise (fun a b => strLeb a.name b.name = true)) :
    (insertByName u l).Pairwise (fun a b => strLeb a.name b.name = true) := by
  induction l with
  | nil => simp [insertByName]
  | cons v vs ih =>
    obtain ⟨hv, hvs⟩ := List.pairwise_cons.mp h
    by_cases hle : strLeb u.name v.name = true
    · simp only [insertByName, hle, if_true]
      refine List.pairwise_cons.mpr ⟨?_, h⟩
      intro w hw
      rcases List.mem_cons.mp hw with rfl | hw'
      · exact hle
      · exact strLeb_trans hle (hv w hw')
    · simp only [insertByName, hle, if_false]
      have hvu : strLeb v.name u.name = true :=
        (strLeb_total u.name v.name).resolve_left hle
      refine List.pairwise_cons.mpr ⟨?_, ih hvs⟩
      intro w hw
      rcases mem_insertByName.mp hw with rfl | hw'
      · exact hvu
      · exact hv w hw'

theorem sortByName_sorted (l : List User) :
    (sortByName l).Pairwise (fun a b => strLeb a.name b.name = true) := by
  induction l with
  | nil => simp [sortByName]
  | cons u us ih => exact insertByName_sorted u _ ih

theorem filter_keyMatch_of_unique (l : List Delivery)
    (hp : l.Pairwise (fun a b => ¬(a.user_id = b.user_id ∧ a.date = b.date)))
    (uid : Nat) (d : String) :
    l.filter (keyMatch uid d) =
      (match l.find? (keyMatch uid d) with
       | some r => [r]
       | none => []) := by
  induction l with
  | nil => simp
  | cons a l ih =>
    obtain ⟨ha, hl⟩ := List.pairwise_cons.mp hp
    by_cases hk : keyMatch uid d a = true
    · have hnil : l.filter (keyMatch uid d) = [] := by
        refine List.filter_eq_nil_iff.mpr (fun b hb hkb => ?_)
        obtain ⟨h1, h2⟩ := keyMatch_eq_true.mp hkb
        obtain ⟨h3, h4⟩ := keyMatch_eq_true.mp hk
        exact ha b hb ⟨h3.trans h1.symm, h4.trans h2.symm⟩
      simp [List.filter_cons, List.find?_cons, hk, hnil]
    · simp only [List.filter_cons, List.find?_cons, hk, if_false]
      exact ih hl

theorem leftJoin_singleton (db : DB) (hu : DeliveriesKeyUnique db)
    (picked : String) (u : User) :
    leftJoinDeliveries db picked u = [(u.name, litersFor db u.id picked)] := by
  unfold leftJoinDeliveries litersFor
  rw [filter_keyMatch_of_unique db.deliveries hu u.id picked]
  cases db.deliveries.find? (keyMatch u.id picked) <;> simp

theorem flatMap_eq_map_of_singleton {α β : Type} (l : List α) (f : α → List β)
    (g : α → β) (h : ∀ a ∈ l, f a = [g a]) : l.flatMap f = l.map g := by
  induction l with
  | nil => rfl
  | cons a l ih =>
    rw [List.flatMap_cons, h a (List.mem_cons_self a l),
      ih (fun b hb => h b (List.mem_cons_of_mem a hb)), List.map_cons]
    rfl

theorem upsertRow_user_id (uid : Nat) (d : String) (v : ℚ) (r : Delivery) :
    (if keyMatch uid d r then { r with liters := v } else r).user_id =
      r.user_id := by
  by_cases hk : keyMatch uid d r = true <;> simp [hk]

theorem upsertRow_date (uid : Nat) (d : String) (v : ℚ) (r : Delivery) :
    (if keyMatch uid d r then { r with liters := v } else r).date = r.date := by
  by_cases hk : keyMatch uid d r = true <;> simp [hk]

theorem upsert_preserves_unique (db : DB) (uid : Nat) (d : String) (v : ℚ)
    (hu : DeliveriesKeyUnique db) :
    DeliveriesKeyUnique (upsertDelivery db uid d v) := by
  unfold DeliveriesKeyUnique upsertDelivery
  by_cases h : db.deliveries.any (keyMatch uid d) = true
  · simp only [h, if_true]
    refine List.Pairwise.map _ (fun a b hab => ?_) hu
    rw [upsertRow_user_id, upsertRow_user_id, upsertRow_date, upsertRow_date]
    exact hab
  · have hF : db.deliveries.any (keyMatch uid d) = false :=
      Bool.eq_false_iff.mpr h
    simp only [hF, Bool.false_eq_true, if_false]
    rw [List.pairwise_append]
    refine ⟨hu, List.pairwise_singleton _ _, ?_⟩
    intro a ha b hb hk
    rcases List.mem_singleton.mp hb with rfl
    have : keyMatch uid d a = true := keyMatch_eq_true.mpr ⟨hk.1, hk.2⟩
    exact absurd this (by simpa using List.any_eq_false.mp hF a ha)

theorem filter_map_update (l : List Delivery)
    (hp : l.Pairwise (fun a b => ¬(a.user_id = b.user_id ∧ a.date = b.date)))
    (uid : Nat) (d : String) (v : ℚ) (hAny : l.any (keyMatch uid d) = true) :
    ((l.map (fun r => if keyMatch uid d r then { r with liters := v } else r)).filter
      (keyMatch uid d)).map (fun r => r.liters) = [v] := by
  induction l with
  | nil => simp at hAny
  | cons a l ih =>
    obtain ⟨ha, hl⟩ := List.pairwise_cons.mp hp
    by_cases hk : keyMatch uid d a = true
    · have hfl : ((l.map
          (fun r => if keyMatch uid d r then { r with liters := v } else r)).filter
            (keyMatch uid d)) = [] := by
        refine List.filter_eq_nil_iff.mpr (fun x hx => ?_)
        obtain ⟨b, hb, rfl⟩ := List.mem_map.mp hx
        obtain ⟨h1, h2⟩ := keyMatch_eq_true.mp hk
        have hbk : keyMatch uid d b = false := by
          by_cases hbb : keyMatch uid d b = true
          · obtain ⟨h3, h4⟩ := keyMatch_eq_true.mp hbb
            exact absurd ⟨h1.trans h3.symm, h2.trans h4.symm⟩ (ha b hb)
          · exact Bool.eq_false_iff.mpr hbb
        intro hc
        rw [keyMatch_eq_true, upsertRow_user_id, upsertRow_date] at hc
        exact Bool.eq_false_iff.mp hbk (keyMatch_eq_true.mpr hc)
      have hgk : keyMatch uid d ({ a with liters := v } : Delivery) = true := by
        obtain ⟨h1, h2⟩ := keyMatch_eq_true.mp hk
        exact keyMatch_eq_true.mpr ⟨h1, h2⟩
      simp only [List.map_cons]
      rw [if_pos hk, List.filter_cons, if_pos hgk, hfl]
      rfl
    · have hAny' : l.any (keyMatch uid d) = true := by
        obtain ⟨x, hx, hpx⟩ := List.any_eq_true.mp hAny
        rcases List.mem_cons.mp hx with rfl | hx'
        · exact absurd hpx hk
        · exact List.any_eq_true.mpr ⟨x, hx', hpx⟩
      have hgk : keyMatch uid d a = false := Bool.eq_false_iff.mpr hk
      simp only [List.map_cons, hgk, Bool.false_eq_true, if_false,
        List.filter_cons, hgk]
      exact ih hl hAny'

theorem upsert_keyRows (db : DB) (uid : Nat) (d : String) (v : ℚ)
    (hu : DeliveriesKeyUnique db) :
    ((upsertDelivery db uid d v).deliveries.filter (keyMatch uid d)).map
      (fun r => r.liters) = [v] := by
  unfold upsertDelivery
  by_cases h : db.deliveries.any (keyMatch uid d) = true
  · simp only [h, if_true]
    exact filter_map_update db.deliveries hu uid d v h
  · have hF : db.deliveries.any (keyMatch uid d) = false :=
      Bool.eq_false_iff.mpr h
    have hnil : db.deliveries.filter (keyMatch uid d) = [] := by
      refine List.filter_eq_nil_iff.mpr (fun b hb hkb => ?_)
      exact absurd hkb (by simpa using List.any_eq_false.mp hF b hb)
    simp [hF, List.filter_append, hnil, keyMatch]

/-- Claim C3: recording a delivery for the same `(user_id, date)` twice — first
liters `v1`, then liters `v2`, both non-negative — leaves exactly one
deliveries row with that key, and its liters is `v2`: the
`ON CONFLICT(user_id, date) DO UPDATE SET liters=EXCLUDED.liters` upsert
overwrites, never sums or duplicates.  (The hypothesis is the table's
`UNIQUE(user_id, date)` constraint.) -/
theorem record_twice_overwrites (db : DB) (uid : Nat) (d : String) (v1 v2 : ℚ)
    (hu : DeliveriesKeyUnique db) (h1 : 0 ≤ v1) (h2 : 0 ≤ v2) :
    (((add_delivery (add_delivery db uid d (some v1)).1 uid d (some v2)).1.deliveries.filter
        (keyMatch uid d)).map (fun r => r.liters)) = [v2] := by
  have e1 : (add_delivery db uid d (some v1)).1 = upsertDelivery db uid d v1 := by
    simp [add_delivery, not_lt.mpr h1]
  have e2 : (add_delivery (upsertDelivery db uid d v1) uid d (some v2)).1 =
      upsertDelivery (upsertDelivery db uid d v1) uid d v2 := by
    simp [add_delivery, not_lt.mpr h2]
  rw [e1, e2]
  exact upsert_keyRows _ uid d v2 (upsert_preserves_unique db uid d v1 hu)

/-- Concrete instance of the last-write-wins theorem: recording 2 then 7 liters
for Bob on 2024-01-15 (a date he already has a row for) leaves a single row
carrying 7. -/
theorem record_twice_overwrites_witness :
    (((add_delivery (add_delivery dbSample 3 "2024-01-15" (some 2)).1 3
        "2024-01-15" (some 7)).1.deliveries.filter
          (keyMatch 3 "2024-01-15")).map (fun r => r.liters)) = [7] :=
  record_twice_overwrites dbSample 3 "2024-01-15" 2 7
    (by simp [DeliveriesKeyUnique, dbSample]) (by norm_num) (by norm_num)

/-- Claim C8: with a supplied (non-blank) date the breakdown is exactly one row
per `role = user` account in name order, each row carrying that user's liters
for the date or 0 when no delivery row exists for the pair; with no date
supplied the breakdown is empty.  (The hypothesis is the deliveries table's
`UNIQUE(user_id, date)` constraint.) -/
theorem breakdown_one_row_per_user (db : DB) (d : String)
    (hu : DeliveriesKeyUnique db) (hd : pyStrip d ≠ "") :
    delivery_breakdown db (some d) =
      (sortByName (db.users.filter (fun u => u.role == "user"))).map
        (fun u => (u.name, litersFor db u.id (pyStrip d))) ∧
    (delivery_breakdown db (some d)).length =
      (db.users.filter (fun u => u.role == "user")).length ∧
    (delivery_breakdown db (some d)).Pairwise
      (fun a b => strLeb a.1 b.1 = true) ∧
    (∀ u ∈ db.users, u.role = "user" →
      (u.name, litersFor db u.id (pyStrip d)) ∈ delivery_breakdown db (some d)) ∧
    delivery_breakdown db none = [] := by
  have hne : (pyStrip d == "") = false := by
    simpa using hd
  have hmain : delivery_breakdown db (some d) =
      (sortByName (db.users.filter (fun u => u.role == "user"))).map
        (fun u => (u.name, litersFor db u.id (pyStrip d))) := by
    show (if (pyStrip d == "") = true then ([] : List (String × ℚ))
      else (sortByName (db.users.filter (fun u => u.role == "user"))).flatMap
        (leftJoinDeliveries db (pyStrip d))) = _
    rw [hne]
    simp only [Bool.false_eq_true, if_false]
    exact flatMap_eq_map_of_singleton _ _ _
      (fun u _ => leftJoin_singleton db hu (pyStrip d) u)
  refine ⟨hmain, ?_, ?_, ?_, rfl⟩
  · rw [hmain, List.length_map]
    exact (sortByName_perm _).length_eq
  · rw [hmain]
    exact List.Pairwise.map _ (fun a b hab => hab) (sortByName_sorted _)
  · intro u hu' hrole
    rw [hmain]
    refine List.mem_map.mpr ⟨u, ?_, rfl⟩
    rw [(sortByName_perm _).mem_iff]
    exact List.mem_filter.mpr ⟨hu', by simp [hrole]⟩

/-- Concrete instance of the breakdown theorem, matching the spec's worked
example: three `user`-role accounts of which only Bob has a delivery on
2024-01-15 yield three rows in name order, Bob's carrying 5 and the others 0;
with no date the result is empty. -/
theorem breakdown_one_row_per_user_witness :
    delivery_breakdown dbSample (some "2024-01-15") =
      [("Alice", 0), ("Bob", 5), ("Cara", 0)] ∧
    delivery_breakdown dbSample none = [] :=
  ⟨((breakdown_one_row_per_user dbSample "2024-01-15"
        (by simp [DeliveriesKeyUnique, dbSample]) (by decide)).1).trans (by rfl),
   (breakdown_one_row_per_user dbSample "2024-01-15"
        (by simp [DeliveriesKeyUnique, dbSample]) (by decide)).2.2.2.2⟩

end Milkman
